import Mathlib

/-!
Verification of the blockchain reconciliation layer of the AgriTrack
backend, as a shallow embedding in Lean.

Embedded source files:
* `app/services/blockchain_service.py` — transport, gateway helper,
  no-op service, service factory (`get_blockchain_service`).
* `backend/app/services/blockchain_tasks.py` — the reconciliation
  tasks (`write_batch_to_blockchain`, `issue_certification_on_blockchain`, …).
* `backend/app/api/routes/batch_routes.py` — the `create_batch` route.

Conventions of the embedding:
* Python strings are `String`, `None`-able values are `Option`.
* The ledger call performed by a task (network I/O) is abstracted into a
  `LedgerOutcome` parameter: `success tx` is the dict the helper returned
  (`tx` is `result.get("transaction_id")`), `failure msg` is an exception
  with text `str(e)`.  The task bodies themselves are translated verbatim.
* A Python function that may raise is embedded as `Except`; a caught
  exception becomes a normal (`Except.ok`) return, so totality of the
  `.ok` result is exactly the no-propagation property of the `try/except`.
* `datetime.utcnow()` is an explicit `now : Nat` parameter.
-/

namespace AgriTrack

/-- Substring search on lists of characters: `listContainsSub l pat` is
true iff `pat` occurs contiguously inside `l`.  Used to embed Python's
`in` operator on strings. -/
def listContainsSub : List Char → List Char → Bool
  | _, [] => true
  | [], _ :: _ => false
  | a :: as, p :: ps => List.isPrefixOf (p :: ps) (a :: as) || listContainsSub as (p :: ps)

/-- Python `pat in s` for strings. -/
def str_contains (s pat : String) : Bool :=
  listContainsSub s.toList pat.toList

/-- Python `pat in s.lower()` (the pattern is written lowercase already;
lowering is done character by character over the ASCII error text). -/
def contains_ci (s pat : String) : Bool :=
  listContainsSub (s.toList.map Char.toLower) pat.toList

/-! ## blockchain_service.py: error taxonomy -/

/-- Diagnostic classification attached to a `BlockchainTransactionError`,
one constructor per raise site in `submit_transaction` / `evaluate_transaction`. -/
inductive TxErrorKind where
  | functionNotFound
  | permission
  | resourceNotFound
  | generic
deriving DecidableEq, Repr

/-- The two exception classes raised by the Fabric service:
`BlockchainConnectionError` and `BlockchainTransactionError`. -/
inductive FabricError where
  | connection (message : String)
  | transaction (kind : TxErrorKind) (message : String)
deriving DecidableEq, Repr

/-- Message of the "not found" `BlockchainTransactionError` (same text in
`submit_transaction` and `evaluate_transaction`). -/
def chaincode_not_found_message (function_name : String) : String :=
  "Chaincode function '" ++ function_name ++ "' not found in supplychain.go"

/-- Message of the authorization/MSP `BlockchainTransactionError` raised by
`submit_transaction`. -/
def submit_permission_message (function_name : String) : String :=
  "Authorization failed for '" ++ function_name ++ "'. Check caller MSP permissions."

/-- Message of the catch-all `BlockchainTransactionError` raised by
`submit_transaction`; carries the original error text. -/
def submit_generic_message (function_name error_msg : String) : String :=
  "Transaction '" ++ function_name ++ "' failed: " ++ error_msg ++
    ". Check function name, arguments, and permissions."

/-- Message of the "does not exist" `BlockchainTransactionError` raised by
`evaluate_transaction`. -/
def evaluate_missing_message (function_name : String) : String :=
  "Resource for '" ++ function_name ++ "' does not exist. Verify the ID is correct."

/-- Message of the catch-all `BlockchainTransactionError` raised by
`evaluate_transaction`; carries the original error text. -/
def evaluate_generic_message (function_name error_msg : String) : String :=
  "Evaluation of '" ++ function_name ++ "' failed: " ++ error_msg ++
    ". Check function name and arguments."

/-- The `except` clause of `FabricBlockchainService.submit_transaction`:
classify the failure text and build the `BlockchainTransactionError`.
`error_msg` is `str(e)`; the branches test `error_msg.lower()`. -/
def submit_wrap_error (function_name error_msg : String) : FabricError :=
  if contains_ci error_msg "not found" then
    .transaction .functionNotFound (chaincode_not_found_message function_name)
  else if contains_ci error_msg "authorization" || contains_ci error_msg "msp" then
    .transaction .permission (submit_permission_message function_name)
  else
    .transaction .generic (submit_generic_message function_name error_msg)

/-- The `except` clause of `FabricBlockchainService.evaluate_transaction`:
note the second branch tests "does not exist", not authorization/MSP text. -/
def evaluate_wrap_error (function_name error_msg : String) : FabricError :=
  if contains_ci error_msg "not found" then
    .transaction .functionNotFound (chaincode_not_found_message function_name)
  else if contains_ci error_msg "does not exist" then
    .transaction .resourceNotFound (evaluate_missing_message function_name)
  else
    .transaction .generic (evaluate_generic_message function_name error_msg)

/-- The `try` body of `submit_transaction` on an initialized service:
`call` is the outcome of `self._contract.submit_transaction(...)`
(result string, or the text of the exception it raised). -/
def submit_call_result (function_name : String) (call : Except String String) :
    Except FabricError String :=
  match call with
  | .ok r => .ok r
  | .error e => .error (submit_wrap_error function_name e)

/-- The `try` body of `evaluate_transaction` on an initialized service. -/
def evaluate_call_result (function_name : String) (call : Except String String) :
    Except FabricError String :=
  match call with
  | .ok r => .ok r
  | .error e => .error (evaluate_wrap_error function_name e)

/-! ## blockchain_service.py: FabricBlockchainService connection state -/

/-- The mutable connection state of `FabricBlockchainService`:
`_initialized`, `_init_lock`, and whether `_gateway`/`_contract` are set. -/
structure FabricState where
  initialized : Bool
  init_lock : Bool
  connected : Bool
deriving DecidableEq, Repr

/-- Text of the reentrancy `BlockchainConnectionError` in
`_initialize_connection`. -/
def reentrancy_message : String :=
  "Initialization already in progress. Possible concurrent access."

/-- Embedding of `FabricBlockchainService._initialize_connection`.
`connect_outcome` abstracts the body of the `try` block (SDK import,
credential file loading, gRPC connect): `.ok ()` if the gateway and
contract were obtained, `.error msg` with the message of the
`BlockchainConnectionError` ultimately raised otherwise.  The `finally`
clause resets `_init_lock`, so on both body outcomes the lock ends false. -/
def initialize_connection (st : FabricState) (connect_outcome : Except String Unit) :
    FabricState × Except FabricError Unit :=
  if st.initialized then
    (st, .ok ())
  else if st.init_lock then
    (st, .error (.connection reentrancy_message))
  else
    match connect_outcome with
    | .ok () => ({ st with initialized := true, connected := true, init_lock := false }, .ok ())
    | .error e => ({ st with init_lock := false }, .error (.connection e))

/-- Embedding of `FabricBlockchainService.submit_transaction` including its
lazy-initialization prologue. -/
def submit_transaction (st : FabricState) (connect_outcome : Except String Unit)
    (function_name : String) (call : Except String String) :
    FabricState × Except FabricError String :=
  if st.initialized then
    (st, submit_call_result function_name call)
  else
    match initialize_connection st connect_outcome with
    | (st2, .ok ()) => (st2, submit_call_result function_name call)
    | (st2, .error e) => (st2, .error e)

/-- Embedding of `FabricBlockchainService.evaluate_transaction` including its
lazy-initialization prologue. -/
def evaluate_transaction (st : FabricState) (connect_outcome : Except String Unit)
    (function_name : String) (call : Except String String) :
    FabricState × Except FabricError String :=
  if st.initialized then
    (st, evaluate_call_result function_name call)
  else
    match initialize_connection st connect_outcome with
    | (st2, .ok ()) => (st2, evaluate_call_result function_name call)
    | (st2, .error e) => (st2, .error e)

/-! ## blockchain_service.py: NoOpBlockchainService -/

/-- The fixed placeholder returned by both no-op methods. -/
def noop_payload : String :=
  "\x7b\"status\":\"noop\",\"message\":\"blockchain not configured\"\x7d"

/-- `NoOpBlockchainService.submit_transaction`: logs and returns the
placeholder; never raises, performs no I/O. -/
def NoOpBlockchainService.submit_transaction (function_name : String) (args : List String) :
    Except FabricError String :=
  .ok noop_payload

/-- `NoOpBlockchainService.evaluate_transaction`: logs and returns the
placeholder; never raises, performs no I/O. -/
def NoOpBlockchainService.evaluate_transaction (function_name : String) (args : List String) :
    Except FabricError String :=
  .ok noop_payload

/-! ## blockchain_service.py: configuration and service factory -/

/-- The Fabric settings consumed by the service, each `Optional[str]`
defaulting to `None` (see `core/config.py`). -/
structure Settings where
  FABRIC_CHANNEL : Option String
  FABRIC_CHAINCODE : Option String
  FABRIC_PEER_ENDPOINT : Option String
  FABRIC_MSP_ID : Option String
  FABRIC_IDENTITY : Option String
  FABRIC_TLS_CA_CERT : Option String
  FABRIC_IDENTITY_CERT : Option String
  FABRIC_IDENTITY_KEY : Option String
deriving DecidableEq, Repr

/-- Python truthiness of an `Optional[str]`: `None` and `""` are falsy. -/
def truthy : Option String → Bool
  | none => false
  | some s => !(s == "")

/-- The `required_fields` list of `_validate_configuration`, in source order. -/
def required_fields (s : Settings) : List (String × Option String) :=
  [("FABRIC_CHANNEL", s.FABRIC_CHANNEL),
   ("FABRIC_CHAINCODE", s.FABRIC_CHAINCODE),
   ("FABRIC_PEER_ENDPOINT", s.FABRIC_PEER_ENDPOINT),
   ("FABRIC_MSP_ID", s.FABRIC_MSP_ID),
   ("FABRIC_IDENTITY", s.FABRIC_IDENTITY),
   ("FABRIC_TLS_CA_CERT", s.FABRIC_TLS_CA_CERT),
   ("FABRIC_IDENTITY_CERT", s.FABRIC_IDENTITY_CERT),
   ("FABRIC_IDENTITY_KEY", s.FABRIC_IDENTITY_KEY)]

/-- `missing_fields` of `_validate_configuration`: names of the required
settings that are falsy. -/
def missing_fields (s : Settings) : List String :=
  ((required_fields s).filter (fun p => !truthy p.2)).map Prod.fst

/-- Embedding of `FabricBlockchainService.__init__`: sets the connection
state to all-false and runs `_validate_configuration`, which raises a
`BlockchainServiceError` iff some required setting is missing.  The
constructor opens no credential file: `_load_tls_credentials` is only
reached from `_initialize_connection`, deferred to first use. -/
def fabric_service_init (s : Settings) : Except String FabricState :=
  if (missing_fields s).isEmpty then
    .ok { initialized := false, init_lock := false, connected := false }
  else
    .error ("Missing Fabric configuration: " ++ String.intercalate ", " (missing_fields s) ++
      ". Set these in environment variables before using blockchain service.")

/-- Which implementation the factory returned. -/
inductive ServiceKind where
  | fabric
  | noop
deriving DecidableEq, Repr

/-- Observable outcome of `get_blockchain_service`: the chosen service,
whether the misconfiguration warning was logged, and the credential files
opened on the way (none: no branch of the factory reads a file). -/
structure FactoryResult where
  service : ServiceKind
  warned : Bool
  files_read : List String
deriving DecidableEq, Repr

/-- The `is_fabric_configured` check of `get_blockchain_service`: only the
channel, chaincode and peer-endpoint settings are tested here. -/
def is_fabric_configured (s : Settings) : Bool :=
  truthy s.FABRIC_CHANNEL && truthy s.FABRIC_CHAINCODE && truthy s.FABRIC_PEER_ENDPOINT

/-- Embedding of the factory `get_blockchain_service`: if the three-field
check passes, construct `FabricBlockchainService`; on a
`BlockchainServiceError` log a warning and fall back to the no-op service;
if the check fails, return the no-op service directly. -/
def get_blockchain_service (s : Settings) : FactoryResult :=
  if is_fabric_configured s then
    match fabric_service_init s with
    | .ok _ => { service := .fabric, warned := false, files_read := [] }
    | .error _ => { service := .noop, warned := true, files_read := [] }
  else
    { service := .noop, warned := false, files_read := [] }

/-! ## blockchain_service.py: SupplyChainContractHelper (the ContractGateway) -/

/-- Whether a gateway method delegates to `submit_transaction` or to
`evaluate_transaction`. -/
inductive LedgerOp where
  | submit
  | evaluate
deriving DecidableEq, Repr

/-- The wire-level invocation a gateway method produces: operation kind,
chaincode function name, and the ordered string argument list. -/
structure LedgerCall where
  op : LedgerOp
  function_name : String
  args : List String
deriving DecidableEq, Repr

/-- `SupplyChainContractHelper.create_batch`: serializes its arguments in
source order (`str(quantity)` for the integer) and submits `CreateBatch`. -/
def SupplyChainContractHelper.create_batch (batch_id product_id farmer_id batch_number : String)
    (quantity : Int) (start_date expected_end_date location qr_code notes : String) : LedgerCall :=
  { op := .submit, function_name := "CreateBatch",
    args := [batch_id, product_id, farmer_id, batch_number, toString quantity,
             start_date, expected_end_date, location, qr_code, notes] }

/-- `SupplyChainContractHelper.get_batch`: evaluates `GetBatch`. -/
def SupplyChainContractHelper.get_batch (batch_id : String) : LedgerCall :=
  { op := .evaluate, function_name := "GetBatch", args := [batch_id] }

/-- `SupplyChainContractHelper.create_transport_manifest`: serializes its
arguments in source order (`str(temperature_monitored).lower()` for the
boolean) and submits `CreateTransportManifest`. -/
def SupplyChainContractHelper.create_transport_manifest
    (transport_id batch_id from_party_id to_party_id vehicle_id driver_name departure_time
      origin_location destination_location : String)
    (temperature_monitored : Bool) (notes : String) : LedgerCall :=
  { op := .submit, function_name := "CreateTransportManifest",
    args := [transport_id, batch_id, from_party_id, to_party_id, vehicle_id, driver_name,
             departure_time, origin_location, destination_location,
             if temperature_monitored then "true" else "false", notes] }

/-! ## blockchain_tasks.py: records and ledger outcomes

Each record structure carries the sync columns the task reads or writes
(`blockchain_tx_id`, `blockchain_status`, `blockchain_error`, and where the
schema has it `blockchain_synced_at`); domain columns only feed the ledger
call, which is abstracted into the `LedgerOutcome` argument. -/

/-- Outcome of the awaited gateway call inside a task: `success tx` is a
returned result dict with `tx = result.get("transaction_id")`; `failure msg`
is any raised exception with `msg = str(e)`. -/
inductive LedgerOutcome where
  | success (transaction_id : Option String)
  | failure (message : String)
deriving DecidableEq, Repr

/-- Sync columns of a `Batch` row. -/
structure BatchRecord where
  blockchain_tx_id : Option String
  blockchain_status : String
  blockchain_error : Option String
  blockchain_synced_at : Option Nat
deriving DecidableEq, Repr

/-- Sync columns of a `LifecycleEvent` row. -/
structure LifecycleEventRecord where
  blockchain_tx_id : Option String
  blockchain_status : String
  blockchain_error : Option String
deriving DecidableEq, Repr

/-- Sync columns of a `Transport` row. -/
structure TransportRecord where
  blockchain_tx_id : Option String
  blockchain_status : String
  blockchain_error : Option String
deriving DecidableEq, Repr

/-- Sync columns of a `ProcessingRecord` row. -/
structure ProcessingRecord where
  blockchain_tx_id : Option String
  blockchain_status : String
  blockchain_error : Option String
deriving DecidableEq, Repr

/-- Sync columns of a `Certification` row, including the
`blockchain_synced_at` column the certification task never writes. -/
structure CertificationRecord where
  blockchain_tx_id : Option String
  blockchain_status : String
  blockchain_error : Option String
  blockchain_synced_at : Option Nat
deriving DecidableEq, Repr

/-- A `RegulatoryRecord` row: its id (string form of the UUID) and sync
columns. -/
structure RegulatoryRecord where
  id : String
  blockchain_tx_id : Option String
  blockchain_status : String
  blockchain_error : Option String
deriving DecidableEq, Repr

/-- The `is_violation` column of a `TemperatureLog` row (the model has no
blockchain sync columns at all). -/
structure TemperatureLogRecord where
  is_violation : Bool
deriving DecidableEq, Repr

/-- Outcome of `helper.add_temperature_log(...)`: a result dict from which
the task reads `result.get("is_violation", False)`, or an exception. -/
inductive TempLedgerOutcome where
  | success (is_violation : Bool)
  | failure (message : String)
deriving DecidableEq, Repr

/-! ## blockchain_tasks.py: the reconciliation tasks

A task's value is `Except String (db rows after commit)`: an `.error`
would be an exception escaping the task; every branch of every task below
is `.ok`, which is exactly the source's `try/except Exception` plus
`finally: db.commit()`. -/

/-- Embedding of `write_batch_to_blockchain`.  `batch` is the row found by
the opening query (the `except` branch re-queries and, in this sequential
model, sees the same row); `now` is `datetime.utcnow()`. -/
def write_batch_to_blockchain (batch : Option BatchRecord) (outcome : LedgerOutcome)
    (now : Nat) : Except String (Option BatchRecord) :=
  match batch with
  | none => .ok none
  | some b =>
    match outcome with
    | .success tx =>
        .ok (some { b with blockchain_tx_id := tx, blockchain_status := "confirmed",
                           blockchain_synced_at := some now, blockchain_error := none })
    | .failure msg =>
        .ok (some { b with blockchain_status := "failed", blockchain_error := some msg })

/-- Embedding of `record_lifecycle_event_on_blockchain` (no
`blockchain_synced_at` write in the source). -/
def record_lifecycle_event_on_blockchain (event : Option LifecycleEventRecord)
    (outcome : LedgerOutcome) : Except String (Option LifecycleEventRecord) :=
  match event with
  | none => .ok none
  | some e =>
    match outcome with
    | .success tx =>
        .ok (some { e with blockchain_tx_id := tx, blockchain_status := "confirmed",
                           blockchain_error := none })
    | .failure msg =>
        .ok (some { e with blockchain_status := "failed", blockchain_error := some msg })

/-- Embedding of `write_transport_to_blockchain`. -/
def write_transport_to_blockchain (transport : Option TransportRecord)
    (outcome : LedgerOutcome) : Except String (Option TransportRecord) :=
  match transport with
  | none => .ok none
  | some t =>
    match outcome with
    | .success tx =>
        .ok (some { t with blockchain_tx_id := tx, blockchain_status := "confirmed",
                           blockchain_error := none })
    | .failure msg =>
        .ok (some { t with blockchain_status := "failed", blockchain_error := some msg })

/-- Embedding of `add_temperature_log_on_blockchain`.  On success the task
copies the chaincode's violation flag into the matching local
`TemperatureLog` row (if one was found); on any exception it only logs —
no row is written, and no sync status exists to write. -/
def add_temperature_log_on_blockchain (transport : Option TransportRecord)
    (temp_log : Option TemperatureLogRecord) (outcome : TempLedgerOutcome) :
    Except String (Option TransportRecord × Option TemperatureLogRecord) :=
  match transport with
  | none => .ok (none, temp_log)
  | some t =>
    match outcome with
    | .success v =>
        match temp_log with
        | some tl => .ok (some t, some { tl with is_violation := v })
        | none => .ok (some t, none)
    | .failure _ => .ok (some t, temp_log)

/-- Embedding of `write_processing_to_blockchain`. -/
def write_processing_to_blockchain (processing : Option ProcessingRecord)
    (outcome : LedgerOutcome) : Except String (Option ProcessingRecord) :=
  match processing with
  | none => .ok none
  | some p =>
    match outcome with
    | .success tx =>
        .ok (some { p with blockchain_tx_id := tx, blockchain_status := "confirmed",
                           blockchain_error := none })
    | .failure msg =>
        .ok (some { p with blockchain_status := "failed", blockchain_error := some msg })

/-- Embedding of `issue_certification_on_blockchain` (the source sets
tx id, status and error, but not `blockchain_synced_at`). -/
def issue_certification_on_blockchain (cert : Option CertificationRecord)
    (outcome : LedgerOutcome) : Except String (Option CertificationRecord) :=
  match cert with
  | none => .ok none
  | some c =>
    match outcome with
    | .success tx =>
        .ok (some { c with blockchain_tx_id := tx, blockchain_status := "confirmed",
                           blockchain_error := none })
    | .failure msg =>
        .ok (some { c with blockchain_status := "failed", blockchain_error := some msg })

/-- Embedding of `write_regulatory_record_to_blockchain`: the `try` body
performs no gateway call — `result` is the hard-coded dict
`(transaction_id := str(regulatory_id), status := "pending")` — hence this
embedding takes no `LedgerOutcome` and the record is always confirmed with
its own id as transaction id. -/
def write_regulatory_record_to_blockchain (record : Option RegulatoryRecord) :
    Except String (Option RegulatoryRecord) :=
  match record with
  | none => .ok none
  | some r =>
      .ok (some { r with blockchain_tx_id := some r.id, blockchain_status := "confirmed",
                         blockchain_error := none })

/-! ## Repeated reconciliation attempts on one batch row -/

/-- The state transformation one `write_batch_to_blockchain` attempt applies
to an existing batch row (the `some` branch of the task). -/
def batch_attempt (b : BatchRecord) (outcome : LedgerOutcome) (now : Nat) : BatchRecord :=
  match outcome with
  | .success tx =>
      { b with blockchain_tx_id := tx, blockchain_status := "confirmed",
               blockchain_synced_at := some now, blockchain_error := none }
  | .failure msg =>
      { b with blockchain_status := "failed", blockchain_error := some msg }

/-- Sequence of reconciliation attempts on one batch row, each attempt an
outcome paired with its `now` timestamp. -/
def run_batch_attempts : BatchRecord → List (LedgerOutcome × Nat) → BatchRecord
  | b, [] => b
  | b, p :: rest => run_batch_attempts (batch_attempt b p.1 p.2) rest

/-- A batch row as `create_batch` commits it: PENDING, no tx id, no error,
not synced. -/
def fresh_batch : BatchRecord :=
  { blockchain_tx_id := none, blockchain_status := "pending",
    blockchain_error := none, blockchain_synced_at := none }

/-- Whether an outcome is a ledger success. -/
def is_success : LedgerOutcome → Bool
  | .success _ => true
  | .failure _ => false

/-- Whether an outcome, if a success, carries a transaction id (a success
result dict lacking the key would be the only exception). -/
def success_carries_id : LedgerOutcome → Bool
  | .success none => false
  | .success (some _) => true
  | .failure _ => true

/-! ## batch_routes.py: the create-batch route -/

/-- `UserRole` from `user_model.py`. -/
inductive UserRole where
  | farmer
  | regulator
  | supplier
  | admin
deriving DecidableEq, Repr

/-- The slice of a `Product` row the route checks. -/
structure ProductRecord where
  is_active : Bool
deriving DecidableEq, Repr

/-- The HTTP errors the route raises. -/
inductive RouteError where
  | forbidden
  | not_found
  | bad_request
deriving DecidableEq, Repr

/-- Embedding of the `create_batch` route: role check, product lookup and
activity check, batch-number uniqueness check, then construction and
commit of the batch row with `blockchain_status := "pending"`; the
reconciliation task is queued only after the commit.  The returned row is
the state immediately after `db.commit()`/`db.refresh(batch)`, before any
background task has run. -/
def create_batch (role : UserRole) (product : Option ProductRecord)
    (batch_number_exists : Bool) : Except RouteError BatchRecord :=
  if role ≠ UserRole.farmer then
    .error .forbidden
  else
    match product with
    | none => .error .not_found
    | some p =>
      if !p.is_active then
        .error .bad_request
      else if batch_number_exists then
        .error .bad_request
      else
        .ok { blockchain_tx_id := none, blockchain_status := "pending",
              blockchain_error := none, blockchain_synced_at := none }

/-! ## Concrete inputs used by counterexamples and witnesses -/

/-- A certification row as committed by its route: PENDING. -/
def pending_certification : CertificationRecord :=
  { blockchain_tx_id := none, blockchain_status := "pending",
    blockchain_error := none, blockchain_synced_at := none }

/-- The certification row after a successful ledger call returning
transaction id "tx-42". -/
def cert_after_tx42 : CertificationRecord :=
  match issue_certification_on_blockchain (some pending_certification)
      (LedgerOutcome.success (some "tx-42")) with
  | .ok (some c) => c
  | _ => pending_certification

/-- A transport row as committed by its route: PENDING. -/
def pending_transport : TransportRecord :=
  { blockchain_tx_id := none, blockchain_status := "pending", blockchain_error := none }

/-- A confirmed-then-failed attempt history: a success carrying "tx-1",
then a ledger failure. -/
def confirm_then_fail_attempts : List (LedgerOutcome × Nat) :=
  [(LedgerOutcome.success (some "tx-1"), 5), (LedgerOutcome.failure "ledger unreachable", 6)]

/-- A success-then-failure history used by the C3 witness. -/
def c3_witness_attempts : List (LedgerOutcome × Nat) :=
  [(LedgerOutcome.success (some "tx-9"), 1), (LedgerOutcome.failure "down", 2)]

/-- A fully-populated Fabric configuration. -/
def settings_all : Settings :=
  { FABRIC_CHANNEL := some "mychannel", FABRIC_CHAINCODE := some "supplychain",
    FABRIC_PEER_ENDPOINT := some "peer0.org1:7051", FABRIC_MSP_ID := some "Org1MSP",
    FABRIC_IDENTITY := some "appUser", FABRIC_TLS_CA_CERT := some "/crypto/ca.crt",
    FABRIC_IDENTITY_CERT := some "/crypto/user.crt", FABRIC_IDENTITY_KEY := some "/crypto/user.key" }

/-- The same configuration with `FABRIC_MSP_ID` unset. -/
def settings_missing_msp : Settings :=
  { settings_all with FABRIC_MSP_ID := none }

/-! ## Helper lemmas -/

/-- A prefix of a list is contained in it. -/
theorem listContainsSub_of_isPrefixOf (l pat : List Char) (h : pat.isPrefixOf l = true) :
    listContainsSub l pat = true := by
  cases pat with
  | nil => cases l <;> simp [listContainsSub]
  | cons p ps =>
    cases l with
    | nil => simp [List.isPrefixOf] at h
    | cons a as => simp [listContainsSub, h]

/-- Containment is stable under prepending: if `pat` is a prefix of `l₂`, it
occurs in `l₁ ++ l₂`. -/
theorem listContainsSub_append (l₁ l₂ pat : List Char) (h : pat.isPrefixOf l₂ = true) :
    listContainsSub (l₁ ++ l₂) pat = true := by
  induction l₁ with
  | nil => simpa using listContainsSub_of_isPrefixOf l₂ pat h
  | cons a as ih =>
    cases pat with
    | nil => simp [listContainsSub]
    | cons p ps => simp [listContainsSub, ih]

/-- Every list is a prefix of itself followed by anything. -/
theorem isPrefixOf_append_self (l t : List Char) : l.isPrefixOf (l ++ t) = true := by
  induction l with
  | nil => simp [List.isPrefixOf]
  | cons a as ih => simp [List.isPrefixOf, ih]

/-- A string of the shape `(x ++ e) ++ s` contains `e`. -/
theorem str_contains_sandwich (x e s : String) : str_contains ((x ++ e) ++ s) e = true := by
  unfold str_contains
  have hx : ((x ++ e) ++ s).toList = x.toList ++ (e.toList ++ s.toList) := by
    simp [String.toList, String.data_append]
  rw [hx]
  exact listContainsSub_append _ _ _ (isPrefixOf_append_self _ _)

/-- The generic submit error message carries the original error text. -/
theorem submit_generic_message_carries_original (fn e : String) :
    str_contains (submit_generic_message fn e) e = true :=
  str_contains_sandwich ("Transaction '" ++ fn ++ "' failed: ") e
    ". Check function name, arguments, and permissions."

/-- The generic evaluate error message carries the original error text. -/
theorem evaluate_generic_message_carries_original (fn e : String) :
    str_contains (evaluate_generic_message fn e) e = true :=
  str_contains_sandwich ("Evaluation of '" ++ fn ++ "' failed: ") e
    ". Check function name and arguments."

/-- Whatever the failure text, `submit_wrap_error` builds a transaction
error (never a connection error): classification does not change the
control-flow outcome. -/
theorem submit_wrap_error_is_transaction (fn e : String) :
    ∃ k m, submit_wrap_error fn e = FabricError.transaction k m := by
  unfold submit_wrap_error
  split
  · exact ⟨_, _, rfl⟩
  · split
    · exact ⟨_, _, rfl⟩
    · exact ⟨_, _, rfl⟩

/-- Same for `evaluate_wrap_error`. -/
theorem evaluate_wrap_error_is_transaction (fn e : String) :
    ∃ k m, evaluate_wrap_error fn e = FabricError.transaction k m := by
  unfold evaluate_wrap_error
  split
  · exact ⟨_, _, rfl⟩
  · split
    · exact ⟨_, _, rfl⟩
    · exact ⟨_, _, rfl⟩

/-- One attempt of `write_batch_to_blockchain` on an existing row is exactly
the `batch_attempt` state transformation, wrapped in a normal return. -/
theorem write_batch_eq_attempt (b : BatchRecord) (o : LedgerOutcome) (now : Nat) :
    write_batch_to_blockchain (some b) o now = Except.ok (some (batch_attempt b o now)) := by
  cases o <;> rfl

/-- After a sequence of attempts, the transaction id is present iff it was
present initially or some attempt succeeded (provided successful results
carry a transaction id). -/
theorem run_batch_attempts_tx_isSome (l : List (LedgerOutcome × Nat)) :
    ∀ b : BatchRecord, (∀ p ∈ l, success_carries_id p.1 = true) →
      (run_batch_attempts b l).blockchain_tx_id.isSome =
        (b.blockchain_tx_id.isSome || l.any fun p => is_success p.1) := by
  induction l with
  | nil => intro b _; simp [run_batch_attempts]
  | cons p rest ih =>
    intro b h
    have hp : success_carries_id p.1 = true := h p (List.mem_cons_self _ _)
    have hrest : ∀ q ∈ rest, success_carries_id q.1 = true :=
      fun q hq => h q (List.mem_cons_of_mem _ hq)
    obtain ⟨o, n⟩ := p
    cases o with
    | success tx =>
      cases tx with
      | some t => simp [run_batch_attempts, batch_attempt, is_success, ih _ hrest]
      | none => simp [success_carries_id] at hp
    | failure m => simp [run_batch_attempts, batch_attempt, is_success, ih _ hrest]

/-- After a sequence of attempts, CONFIRMED status still implies a present
transaction id, as long as the starting row satisfies the same implication
and successful results carry ids. -/
theorem run_batch_attempts_confirmed_imp_tx (l : List (LedgerOutcome × Nat)) :
    ∀ b : BatchRecord, (∀ p ∈ l, success_carries_id p.1 = true) →
      (b.blockchain_status = "confirmed" → b.blockchain_tx_id.isSome = true) →
      ((run_batch_attempts b l).blockchain_status = "confirmed" →
        (run_batch_attempts b l).blockchain_tx_id.isSome = true) := by
  induction l with
  | nil => intro b _ hb; simpa [run_batch_attempts] using hb
  | cons p rest ih =>
    intro b h hb
    have hp : success_carries_id p.1 = true := h p (List.mem_cons_self _ _)
    have hrest : ∀ q ∈ rest, success_carries_id q.1 = true :=
      fun q hq => h q (List.mem_cons_of_mem _ hq)
    obtain ⟨o, n⟩ := p
    simp only [run_batch_attempts]
    cases o with
    | success tx =>
      cases tx with
      | some t => exact ih _ hrest (fun _ => by simp [batch_attempt])
      | none => simp [success_carries_id] at hp
    | failure m =>
      refine ih _ hrest ?_
      intro hc
      simp only [batch_attempt] at hc
      exact absurd hc (by decide)

/-- The three settings checked by `is_fabric_configured` are truthy whenever
no required field is missing. -/
theorem configured_of_no_missing (s : Settings) (h : missing_fields s = []) :
    is_fabric_configured s = true := by
  cases h1 : truthy s.FABRIC_CHANNEL with
  | false => simp [missing_fields, required_fields, List.filter, h1] at h
  | true =>
    cases h2 : truthy s.FABRIC_CHAINCODE with
    | false => simp [missing_fields, required_fields, List.filter, h1, h2] at h
    | true =>
      cases h3 : truthy s.FABRIC_PEER_ENDPOINT with
      | false => simp [missing_fields, required_fields, List.filter, h1, h2, h3] at h
      | true => simp [is_fabric_configured, h1, h2, h3]

/-! ## Claim theorems -/

/-- C1 counterexample: the certification reconciliation task, on a ledger
success carrying transaction id "tx-42", ends with status CONFIRMED and
tx id "tx-42" but leaves `blockchain_synced_at` unset — the claim that
every task (in particular `issue_certification_on_blockchain`) sets
`synced_at` is false. -/
theorem C1_counterexample :
    cert_after_tx42.blockchain_status = "confirmed" ∧
    cert_after_tx42.blockchain_tx_id = some "tx-42" ∧
    cert_after_tx42.blockchain_synced_at = none :=
  ⟨rfl, rfl, rfl⟩

/-- C1 (amended): on a successful ledger call for an existing record, a
reconciliation task sets status CONFIRMED, sets the tx id to the ledger's
returned transaction id and clears the error; only
`write_batch_to_blockchain` additionally sets `synced_at = now`, while
`issue_certification_on_blockchain` leaves `blockchain_synced_at`
unchanged. -/
theorem C1_success_updates (b : BatchRecord) (c : CertificationRecord)
    (tx : Option String) (now : Nat) :
    write_batch_to_blockchain (some b) (LedgerOutcome.success tx) now =
      Except.ok (some { b with blockchain_tx_id := tx, blockchain_status := "confirmed",
                               blockchain_synced_at := some now, blockchain_error := none }) ∧
    issue_certification_on_blockchain (some c) (LedgerOutcome.success tx) =
      Except.ok (some { c with blockchain_tx_id := tx, blockchain_status := "confirmed",
                               blockchain_error := none }) :=
  ⟨rfl, rfl⟩

/-- C2 counterexample: the temperature-log reconciliation task, on a ledger
failure with an existing transport row, returns normally with every row
unchanged — it does not set any sync status to FAILED nor any ledger
error, so the claim does not hold of every reconciliation task. -/
theorem C2_counterexample :
    add_temperature_log_on_blockchain (some pending_transport) (some { is_violation := false })
        (TempLedgerOutcome.failure "connection timeout") =
      Except.ok (some pending_transport, some { is_violation := false }) ∧
    pending_transport.blockchain_status = "pending" ∧
    pending_transport.blockchain_error = none :=
  ⟨rfl, rfl, rfl⟩

/-- C2 (amended): on any ledger failure with an existing record, each
status-tracking reconciliation task (batch, lifecycle event, transport,
processing, certification) sets status FAILED and the error to the failure
message, leaving the tx id untouched, and returns normally (`Except.ok`),
so the failure never propagates to the scheduler; the temperature-log task
also returns normally but only logs, updating no record. -/
theorem C2_failure_updates (b : BatchRecord) (ev : LifecycleEventRecord) (t : TransportRecord)
    (pr : ProcessingRecord) (c : CertificationRecord) (tl : TemperatureLogRecord)
    (msg : String) (now : Nat) :
    write_batch_to_blockchain (some b) (LedgerOutcome.failure msg) now =
      Except.ok (some { b with blockchain_status := "failed", blockchain_error := some msg }) ∧
    record_lifecycle_event_on_blockchain (some ev) (LedgerOutcome.failure msg) =
      Except.ok (some { ev with blockchain_status := "failed", blockchain_error := some msg }) ∧
    write_transport_to_blockchain (some t) (LedgerOutcome.failure msg) =
      Except.ok (some { t with blockchain_status := "failed", blockchain_error := some msg }) ∧
    write_processing_to_blockchain (some pr) (LedgerOutcome.failure msg) =
      Except.ok (some { pr with blockchain_status := "failed", blockchain_error := some msg }) ∧
    issue_certification_on_blockchain (some c) (LedgerOutcome.failure msg) =
      Except.ok (some { c with blockchain_status := "failed", blockchain_error := some msg }) ∧
    add_temperature_log_on_blockchain (some t) (some tl) (TempLedgerOutcome.failure msg) =
      Except.ok (some t, some tl) :=
  ⟨rfl, rfl, rfl, rfl, rfl, rfl⟩

/-- C3 counterexample: starting from a fresh PENDING batch row, a confirmed
attempt followed by a failed re-attempt leaves `blockchain_tx_id = "tx-1"`
while the status is FAILED: the claimed invariant "tx id present iff
status CONFIRMED" is violated by this attempt sequence. -/
theorem C3_counterexample :
    (run_batch_attempts fresh_batch confirm_then_fail_attempts).blockchain_tx_id = some "tx-1" ∧
    (run_batch_attempts fresh_batch confirm_then_fail_attempts).blockchain_status = "failed" ∧
    ¬(((run_batch_attempts fresh_batch confirm_then_fail_attempts).blockchain_tx_id.isSome = true) ↔
        (run_batch_attempts fresh_batch confirm_then_fail_attempts).blockchain_status = "confirmed") := by
  refine ⟨rfl, rfl, ?_⟩
  decide

/-- C3 (amended): over any sequence of reconciliation attempts on a fresh
record (each successful ledger result carrying a transaction id),
`ledger_tx_id` is present iff some attempt succeeded — not iff the current
status is CONFIRMED; the forward direction survives (CONFIRMED implies a
present tx id), but a failed re-attempt after a confirmed one leaves the
tx id present with status FAILED. -/
theorem C3_tx_id_characterization (l : List (LedgerOutcome × Nat))
    (h : ∀ p ∈ l, success_carries_id p.1 = true) :
    (run_batch_attempts fresh_batch l).blockchain_tx_id.isSome =
      (l.any fun p => is_success p.1) ∧
    ((run_batch_attempts fresh_batch l).blockchain_status = "confirmed" →
      (run_batch_attempts fresh_batch l).blockchain_tx_id.isSome = true) := by
  constructor
  · simpa [fresh_batch] using run_batch_attempts_tx_isSome l fresh_batch h
  · exact run_batch_attempts_confirmed_imp_tx l fresh_batch h (fun hc => absurd hc (by decide))

/-- C3 witness: the amended characterization evaluated on a concrete
success-then-failure history. -/
theorem C3_tx_id_characterization_witness :
    (run_batch_attempts fresh_batch c3_witness_attempts).blockchain_tx_id.isSome =
      (c3_witness_attempts.any fun p => is_success p.1) ∧
    ((run_batch_attempts fresh_batch c3_witness_attempts).blockchain_status = "confirmed" →
      (run_batch_attempts fresh_batch c3_witness_attempts).blockchain_tx_id.isSome = true) :=
  C3_tx_id_characterization c3_witness_attempts (by decide)

/-- C4: whenever the create-batch route commits a batch (returns 201 with a
row rather than an HTTP error), the committed row has
`blockchain_status = "pending"` — the reconciliation task is only queued
after this commit. -/
theorem C4_created_batch_is_pending (role : UserRole) (product : Option ProductRecord)
    (batch_number_exists : Bool) (b : BatchRecord)
    (h : create_batch role product batch_number_exists = Except.ok b) :
    b.blockchain_status = "pending" := by
  unfold create_batch at h
  split at h
  · cases h
  · split at h
    · cases h
    · split at h
      · cases h
      · split at h
        · cases h
        · cases h
          rfl

/-- C4 witness: a farmer creating a batch for an active product with a
fresh batch number commits a PENDING row. -/
theorem C4_created_batch_is_pending_witness :
    create_batch UserRole.farmer (some { is_active := true }) false = Except.ok fresh_batch ∧
    fresh_batch.blockchain_status = "pending" :=
  ⟨rfl, C4_created_batch_is_pending UserRole.farmer (some { is_active := true }) false
    fresh_batch rfl⟩

/-- C5: the service factory returns the live Fabric service when every
required setting is present; if any required setting is absent it returns
the no-op service and reads no credential file (no factory branch opens a
file — reads happen only in the deferred connection step); and when the
three-field precheck passes but construction raises the configuration
error, it logs a warning and returns the no-op service instead of
raising. -/
theorem C5_factory_selection (s : Settings) :
    (missing_fields s = [] →
      get_blockchain_service s =
        { service := .fabric, warned := false, files_read := [] }) ∧
    (missing_fields s ≠ [] →
      (get_blockchain_service s).service = .noop ∧
      (get_blockchain_service s).files_read = []) ∧
    (is_fabric_configured s = true → missing_fields s ≠ [] →
      get_blockchain_service s =
        { service := .noop, warned := true, files_read := [] }) := by
  refine ⟨?_, ?_, ?_⟩
  · intro h
    have hc := configured_of_no_missing s h
    simp [get_blockchain_service, hc, fabric_service_init, h]
  · intro h
    have hne : (missing_fields s).isEmpty = false := by
      cases hm : missing_fields s with
      | nil => exact absurd hm h
      | cons x xs => rfl
    cases hc : is_fabric_configured s with
    | false => simp [get_blockchain_service, hc]
    | true => simp [get_blockchain_service, hc, fabric_service_init, hne]
  · intro hc h
    have hne : (missing_fields s).isEmpty = false := by
      cases hm : missing_fields s with
      | nil => exact absurd hm h
      | cons x xs => rfl
    simp [get_blockchain_service, hc, fabric_service_init, hne]

/-- C5 witness: with the full configuration the factory yields the Fabric
service; with `FABRIC_MSP_ID` unset it yields the no-op service, reads no
file, and (since the three-field precheck still passes) logs the
fallback warning. -/
theorem C5_factory_selection_witness :
    get_blockchain_service settings_all =
      { service := .fabric, warned := false, files_read := [] } ∧
    (get_blockchain_service settings_missing_msp).service = .noop ∧
    (get_blockchain_service settings_missing_msp).files_read = [] ∧
    get_blockchain_service settings_missing_msp =
      { service := .noop, warned := true, files_read := [] } :=
  ⟨(C5_factory_selection settings_all).1 (by decide),
   ((C5_factory_selection settings_missing_msp).2.1 (by decide)).1,
   ((C5_factory_selection settings_missing_msp).2.1 (by decide)).2,
   (C5_factory_selection settings_missing_msp).2.2 (by decide) (by decide)⟩

/-- C6: for every function name and argument list, both no-op methods
return the same fixed placeholder payload via a normal return
(`Except.ok`, never an error), with no transport state involved. -/
theorem C6_noop_fixed_payload (function_name : String) (args : List String) :
    NoOpBlockchainService.submit_transaction function_name args = Except.ok noop_payload ∧
    NoOpBlockchainService.evaluate_transaction function_name args = Except.ok noop_payload :=
  ⟨rfl, rfl⟩

/-- C7 counterexample: an `evaluate_transaction` failure whose message
carries authorization/MSP text is classified as the generic transaction
error, not the permission one — `evaluate_transaction` has no
authorization branch (its second branch tests "does not exist"). -/
theorem C7_counterexample :
    evaluate_call_result "GetBatch"
        (Except.error "authorization failure: MSP signature rejected") =
      Except.error (FabricError.transaction TxErrorKind.generic
        (evaluate_generic_message "GetBatch" "authorization failure: MSP signature rejected")) ∧
    (contains_ci "authorization failure: MSP signature rejected" "authorization" ||
      contains_ci "authorization failure: MSP signature rejected" "msp") = true ∧
    TxErrorKind.generic ≠ TxErrorKind.permission := by
  refine ⟨rfl, by decide, by decide⟩

/-- C7 (amended): every failure of an initialized transport call raises a
TransactionError, and classification never changes the failure control
flow.  For `submit_transaction`: "not found" yields function-not-found,
authorization/MSP text yields permission, anything else the generic error
carrying the original message.  For `evaluate_transaction` the branches
are "not found", then "does not exist" (resource-not-found); an
authorization/MSP message without those substrings falls to the generic
error carrying the original message. -/
theorem C7_error_classification (fn e : String) :
    (contains_ci e "not found" = true →
      submit_call_result fn (Except.error e) =
        Except.error (FabricError.transaction TxErrorKind.functionNotFound
          (chaincode_not_found_message fn)) ∧
      evaluate_call_result fn (Except.error e) =
        Except.error (FabricError.transaction TxErrorKind.functionNotFound
          (chaincode_not_found_message fn))) ∧
    (contains_ci e "not found" = false →
      (contains_ci e "authorization" || contains_ci e "msp") = true →
      submit_call_result fn (Except.error e) =
        Except.error (FabricError.transaction TxErrorKind.permission
          (submit_permission_message fn))) ∧
    (contains_ci e "not found" = false → contains_ci e "does not exist" = true →
      evaluate_call_result fn (Except.error e) =
        Except.error (FabricError.transaction TxErrorKind.resourceNotFound
          (evaluate_missing_message fn))) ∧
    (contains_ci e "not found" = false →
      (contains_ci e "authorization" || contains_ci e "msp") = false →
      submit_call_result fn (Except.error e) =
        Except.error (FabricError.transaction TxErrorKind.generic
          (submit_generic_message fn e)) ∧
      str_contains (submit_generic_message fn e) e = true) ∧
    (contains_ci e "not found" = false → contains_ci e "does not exist" = false →
      evaluate_call_result fn (Except.error e) =
        Except.error (FabricError.transaction TxErrorKind.generic
          (evaluate_generic_message fn e)) ∧
      str_contains (evaluate_generic_message fn e) e = true) ∧
    (∃ k m, submit_call_result fn (Except.error e) =
      Except.error (FabricError.transaction k m)) ∧
    (∃ k m, evaluate_call_result fn (Except.error e) =
      Except.error (FabricError.transaction k m)) := by
  refine ⟨?_, ?_, ?_, ?_, ?_, ?_, ?_⟩
  · intro h
    exact ⟨by simp [submit_call_result, submit_wrap_error, h],
           by simp [evaluate_call_result, evaluate_wrap_error, h]⟩
  · intro h1 h2
    simp [submit_call_result, submit_wrap_error, h1, h2]
  · intro h1 h2
    simp [evaluate_call_result, evaluate_wrap_error, h1, h2]
  · intro h1 h2
    exact ⟨by simp [submit_call_result, submit_wrap_error, h1, h2],
           submit_generic_message_carries_original fn e⟩
  · intro h1 h2
    exact ⟨by simp [evaluate_call_result, evaluate_wrap_error, h1, h2],
           evaluate_generic_message_carries_original fn e⟩
  · obtain ⟨k, m, hk⟩ := submit_wrap_error_is_transaction fn e
    exact ⟨k, m, by simp [submit_call_result, hk]⟩
  · obtain ⟨k, m, hk⟩ := evaluate_wrap_error_is_transaction fn e
    exact ⟨k, m, by simp [evaluate_call_result, hk]⟩

/-- C7 witness: the three classification branches evaluated on concrete
failure messages. -/
theorem C7_error_classification_witness :
    submit_call_result "CreateBatch" (Except.error "function not found") =
      Except.error (FabricError.transaction TxErrorKind.functionNotFound
        (chaincode_not_found_message "CreateBatch")) ∧
    submit_call_result "CreateBatch" (Except.error "authorization denied") =
      Except.error (FabricError.transaction TxErrorKind.permission
        (submit_permission_message "CreateBatch")) ∧
    evaluate_call_result "GetBatch" (Except.error "batch B7 does not exist") =
      Except.error (FabricError.transaction TxErrorKind.resourceNotFound
        (evaluate_missing_message "GetBatch")) :=
  ⟨((C7_error_classification "CreateBatch" "function not found").1 (by decide)).1,
   (C7_error_classification "CreateBatch" "authorization denied").2.1 (by decide) (by decide),
   (C7_error_classification "GetBatch" "batch B7 does not exist").2.2.1 (by decide) (by decide)⟩

/-- C8: connection establishment is idempotent and guarded — an already
initialized service returns immediately with its state unchanged; an
overlapping attempt (lock set, not initialized) raises the reentrancy
ConnectionError; every attempt entered with the lock free leaves the lock
free, on success and on failure alike; a freshly constructed service is
uninitialized (establishment deferred to first use); and on an already
initialized service `submit_transaction` / `evaluate_transaction` leave
the connection state untouched. -/
theorem C8_lazy_idempotent_guarded_init (st : FabricState) (conn : Except String Unit)
    (s : Settings) (fn : String) (call : Except String String) :
    (st.initialized = true → initialize_connection st conn = (st, Except.ok ())) ∧
    (st.initialized = false → st.init_lock = true →
      initialize_connection st conn =
        (st, Except.error (FabricError.connection reentrancy_message))) ∧
    (st.init_lock = false → (initialize_connection st conn).1.init_lock = false) ∧
    ((missing_fields s).isEmpty = true →
      fabric_service_init s =
        Except.ok { initialized := false, init_lock := false, connected := false }) ∧
    (st.initialized = true →
      submit_transaction st conn fn call = (st, submit_call_result fn call) ∧
      evaluate_transaction st conn fn call = (st, evaluate_call_result fn call)) := by
  refine ⟨?_, ?_, ?_, ?_, ?_⟩
  · intro h
    simp [initialize_connection, h]
  · intro h1 h2
    simp [initialize_connection, h1, h2]
  · intro h
    cases hi : st.initialized with
    | true => simp [initialize_connection, hi, h]
    | false =>
      cases conn with
      | ok u => cases u; simp [initialize_connection, hi, h]
      | error e => simp [initialize_connection, hi, h]
  · intro h
    simp [fabric_service_init, h]
  · intro h
    exact ⟨by simp [submit_transaction, h], by simp [evaluate_transaction, h]⟩

/-- C8 witness: the guard behavior on concrete states — initialized state
returns unchanged; locked uninitialized state raises the reentrancy error;
a failed first attempt releases the lock; a fresh construction from full
settings is uninitialized. -/
theorem C8_lazy_idempotent_guarded_init_witness :
    initialize_connection { initialized := true, init_lock := false, connected := true }
        (Except.ok ()) =
      ({ initialized := true, init_lock := false, connected := true }, Except.ok ()) ∧
    initialize_connection { initialized := false, init_lock := true, connected := false }
        (Except.ok ()) =
      ({ initialized := false, init_lock := true, connected := false },
        Except.error (FabricError.connection reentrancy_message)) ∧
    (initialize_connection { initialized := false, init_lock := false, connected := false }
        (Except.error "TLS credential file not found")).1.init_lock = false ∧
    fabric_service_init settings_all =
      Except.ok { initialized := false, init_lock := false, connected := false } :=
  ⟨(C8_lazy_idempotent_guarded_init
      { initialized := true, init_lock := false, connected := true }
      (Except.ok ()) settings_all "CreateBatch" (Except.ok "r")).1 rfl,
   (C8_lazy_idempotent_guarded_init
      { initialized := false, init_lock := true, connected := false }
      (Except.ok ()) settings_all "CreateBatch" (Except.ok "r")).2.1 rfl rfl,
   (C8_lazy_idempotent_guarded_init
      { initialized := false, init_lock := false, connected := false }
      (Except.error "TLS credential file not found") settings_all "CreateBatch"
      (Except.ok "r")).2.2.1 rfl,
   (C8_lazy_idempotent_guarded_init
      { initialized := false, init_lock := false, connected := false }
      (Except.ok ()) settings_all "CreateBatch" (Except.ok "r")).2.2.2.1 (by decide)⟩

/-- C9: the gateway methods are deterministic serializers — for any domain
input, `create_batch` submits `CreateBatch` with its ten arguments
stringified in source order, `create_transport_manifest` submits
`CreateTransportManifest` with its eleven arguments in source order
(boolean lowered to "true"/"false"), and `get_batch` evaluates `GetBatch`;
the equations pin the exact argument lists, so repeated invocations on the
same input produce the identical call. -/
theorem C9_gateway_serialization (batch_id product_id farmer_id batch_number : String)
    (quantity : Int) (start_date expected_end_date location qr_code notes : String)
    (transport_id tbatch_id from_party_id to_party_id vehicle_id driver_name departure_time
      origin_location destination_location : String)
    (temperature_monitored : Bool) (tnotes : String) :
    SupplyChainContractHelper.create_batch batch_id product_id farmer_id batch_number
        quantity start_date expected_end_date location qr_code notes =
      { op := .submit, function_name := "CreateBatch",
        args := [batch_id, product_id, farmer_id, batch_number, toString quantity,
                 start_date, expected_end_date, location, qr_code, notes] } ∧
    SupplyChainContractHelper.create_transport_manifest transport_id tbatch_id from_party_id
        to_party_id vehicle_id driver_name departure_time origin_location
        destination_location temperature_monitored tnotes =
      { op := .submit, function_name := "CreateTransportManifest",
        args := [transport_id, tbatch_id, from_party_id, to_party_id, vehicle_id, driver_name,
                 departure_time, origin_location, destination_location,
                 if temperature_monitored then "true" else "false", tnotes] } ∧
    SupplyChainContractHelper.get_batch batch_id =
      { op := .evaluate, function_name := "GetBatch", args := [batch_id] } :=
  ⟨rfl, rfl, rfl⟩

/-- C10: the regulatory-record reconciliation task, for an existing record,
marks it CONFIRMED with the tx id set to the string form of the record's
own id and the error cleared; its embedding takes no ledger outcome at all
because the source task performs no gateway or transport call (the result
dict is hard-coded). -/
theorem C10_regulatory_no_ledger_call (r : RegulatoryRecord) :
    write_regulatory_record_to_blockchain (some r) =
      Except.ok (some { r with blockchain_tx_id := some r.id,
                               blockchain_status := "confirmed",
                               blockchain_error := none }) :=
  rfl

end AgriTrack
